import Mathlib

/-!
Verification of the indicator-classification and report-rendering engine of
the crypto-dashboard repository (src/crypto_dashboard.py, revision v5).

The engine is embedded shallowly:

* Python float values are modelled as rationals.  A fractional literal such
  as -0.01 from the source is written with mkRat so that the kernel can
  evaluate it; integer thresholds are ordinary numerals.
* A Python dict entry that may be missing is modelled as an Option field.
  The data-collection functions of the source never store a None value under
  a key: a metric that could not be fetched is simply a missing key, so
  d.get(k) returning None corresponds to the field being none, and
  d.get(k, default) corresponds to Option.getD.
* The two report builders read the wall clock inside their bodies
  (datetime.utcnow() + timedelta(hours=1), then strftime).  That impure read
  is made explicit here as a time_str argument holding the formatted
  timestamp; everything after the read is pure string construction.
* String routines used for verification (equality, substring search,
  Python str.strip) are written with explicit List.rec so that concrete
  reports evaluate inside the kernel.
-/

set_option maxRecDepth 10000

/-! ### List and string machinery -/

/-- Character-list equality as a Bool, written with List.rec so that the
kernel can evaluate it on long strings. -/
def eqCharsF : List Char → List Char → Bool :=
  List.rec (motive := fun _ => List Char → Bool)
    (fun ys => ys.isEmpty)
    (fun c _ ih ys =>
      List.casesOn (motive := fun _ => Bool) ys false (fun d ds => c == d && ih ds))

/-- String equality as a Bool. -/
def eqStr (s t : String) : Bool := eqCharsF s.data t.data

/-- hasPrefixF p l is true when the character list p is a prefix of l. -/
def hasPrefixF : List Char → List Char → Bool :=
  List.rec (motive := fun _ => List Char → Bool)
    (fun _ => true)
    (fun p _ ih l =>
      List.casesOn (motive := fun _ => Bool) l false (fun c cs => c == p && ih cs))

/-- occursF hay pat is true when pat occurs as a contiguous sublist of hay. -/
def occursF : List Char → List Char → Bool :=
  List.rec (motive := fun _ => List Char → Bool)
    (fun pat => pat.isEmpty)
    (fun c cs ih pat => hasPrefixF pat (c :: cs) || ih pat)

/-- strOccurs hay sub is true when sub occurs as a substring of hay. -/
def strOccurs (hay sub : String) : Bool := occursF hay.data sub.data

/-- Whitespace predicate of Python str.strip for the characters that can
occur in the reports. -/
def wsChar (c : Char) : Bool := c == ' ' || c == '\n' || c == '\t' || c == '\r'

/-- Drop leading whitespace characters. -/
def dropWSF : List Char → List Char :=
  List.rec (motive := fun _ => List Char) []
    (fun c cs ih => if wsChar c then ih else c :: cs)

/-- Reversal with an accumulator. -/
def revF : List Char → List Char → List Char :=
  List.rec (motive := fun _ => List Char → List Char)
    (fun acc => acc)
    (fun c _ ih acc => ih (c :: acc))

/-- Model of Python str.strip(): remove whitespace from both ends. -/
def pyStrip (s : String) : String :=
  String.mk (revF (dropWSF (revF (dropWSF s.data) [])) [])

/-! ### Python numeric formatting -/

/-- Floor of a rational as an integer. -/
def intFloorQ (q : ℚ) : ℤ := Int.fdiv q.num q.den

/-- Round-half-to-even, the rounding used by Python float formatting; the
fractional part is computed with mkRat over the numerator and denominator
so that the kernel can evaluate it. -/
def roundHalfEvenQ (x : ℚ) : ℤ :=
  let n := intFloorQ x
  let r := mkRat (x.num - n * x.den) x.den
  if r < mkRat 1 2 then n
  else if mkRat 1 2 < r then n + 1
  else if n % 2 = 0 then n else n + 1

/-- Rounding of q to prec decimal places, returned scaled by 10 ^ prec
(the scaling is q * 10 ^ prec, written on the numerator). -/
def pyRound (prec : ℕ) (q : ℚ) : ℤ := roundHalfEvenQ (mkRat (q.num * 10 ^ prec) q.den)

/-- Left-pad a string with zeros to length at least k. -/
def padZeros (k : ℕ) (s : String) : String :=
  String.mk (List.replicate (k - s.data.length) '0') ++ s

/-- Fixed-point rendering of a nonnegative rational with prec decimal
places, the unsigned core of the Python format spec .precf. -/
def fmtAbs (prec : ℕ) (q : ℚ) : String :=
  let m := (pyRound prec q).toNat
  if prec = 0 then toString m
  else
    let s := padZeros (prec + 1) (toString m)
    let k := s.data.length - prec
    String.mk (s.data.take k) ++ "." ++ String.mk (s.data.drop k)

/-- Python format spec :.precf (minus sign only when negative). -/
def fmtFixed (prec : ℕ) (q : ℚ) : String :=
  (if q < 0 then "-" else "") ++ fmtAbs prec (if q < 0 then -q else q)

/-- Python format spec :+.precf (explicit sign, as used for deltas). -/
def fmtSigned (prec : ℕ) (q : ℚ) : String :=
  (if q < 0 then "-" else "+") ++ fmtAbs prec (if q < 0 then -q else q)

/-- Insert a comma after every third digit of a reversed digit list. -/
def commasRev : ℕ → List Char → List Char
  | _, [] => []
  | k, c :: cs =>
      if k = 2 && !cs.isEmpty then c :: ',' :: commasRev 0 cs
      else c :: commasRev (k + 1) cs

/-- Python format spec :,.0f — round to an integer and group the digits in
threes with commas. -/
def fmtGrouped (q : ℚ) : String :=
  let m := (pyRound 0 (if q < 0 then -q else q)).toNat
  (if q < 0 then "-" else "") ++
    String.mk ((commasRev 0 (toString m).data.reverse).reverse)

/-- Model of Python str() on a float, as interpolated by an f-string with no
format spec.  Every value rendered this way by the source was rounded
upstream to at most two decimal places, so a short fixed-point form is the
exact behaviour on reachable snapshots; other denominators fall back to six
places. -/
def pyStrFloat (q : ℚ) : String :=
  if q.den = 1 then fmtFixed 1 q
  else if (mkRat (q.num * 10) q.den).den = 1 then fmtFixed 1 q
  else if (mkRat (q.num * 100) q.den).den = 1 then fmtFixed 2 q
  else if (mkRat (q.num * 1000) q.den).den = 1 then fmtFixed 3 q
  else if (mkRat (q.num * 10000) q.den).den = 1 then fmtFixed 4 q
  else fmtFixed 6 q

/-- Python truthiness of an optional float: None and 0 are falsy. -/
def pyTruthy (x : Option ℚ) : Bool :=
  match x with
  | none => false
  | some q => if q = 0 then false else true

/-! ### Traffic-light classifiers (source lines 33-174)

Each classifier mirrors one get_*_signal function: a None guard returning
the white circle, then the ordered threshold branches of the source. -/

/-- Tier marker for a healthy reading (emoji returned by the source). -/
def GREEN : String := "🟢"

/-- Tier marker for a middling reading. -/
def YELLOW : String := "🟡"

/-- Tier marker for a danger reading. -/
def RED : String := "🔴"

/-- Tier marker for an absent reading. -/
def UNKNOWN : String := "⚪"

/-- Classifier for the 120-day moving-average distance (source line 33). -/
def get_ma_signal (distance : Option ℚ) : String :=
  match distance with
  | none => UNKNOWN
  | some d => if d ≥ 5 then GREEN else if d ≥ -5 then YELLOW else RED

/-- Classifier for the distance from the 52-week high (source line 49). -/
def get_52w_high_signal (change : Option ℚ) : String :=
  match change with
  | none => UNKNOWN
  | some c => if c ≥ -15 then GREEN else if c ≥ -40 then YELLOW else RED

/-- Classifier for the distance from the 52-week low (source line 65). -/
def get_52w_low_signal (change : Option ℚ) : String :=
  match change with
  | none => UNKNOWN
  | some c => if c ≥ 100 then GREEN else if c ≥ 30 then YELLOW else RED

/-- Fear-and-greed index classifier (source line 81); the index is an int. -/
def get_fear_greed_signal (value : Option ℤ) : String :=
  match value with
  | none => UNKNOWN
  | some v => if v ≤ 25 then GREEN else if v ≤ 74 then YELLOW else RED

/-- Kimchi-premium classifier (source line 97). -/
def get_kimchi_signal (premium : Option ℚ) : String :=
  match premium with
  | none => UNKNOWN
  | some p =>
      if -1 ≤ p ∧ p ≤ 2 then GREEN
      else if -3 ≤ p ∧ p ≤ 5 then YELLOW
      else RED

/-- Funding-rate classifier (source line 113); the bounds are the source
literals -0.01, 0.03, -0.03, 0.08. -/
def get_funding_signal (rate : Option ℚ) : String :=
  match rate with
  | none => UNKNOWN
  | some r =>
      if mkRat (-1) 100 ≤ r ∧ r ≤ mkRat 3 100 then GREEN
      else if mkRat (-3) 100 ≤ r ∧ r ≤ mkRat 8 100 then YELLOW
      else RED

/-- BTC-dominance classifier (source line 129). -/
def get_dominance_signal (dom : Option ℚ) : String :=
  match dom with
  | none => UNKNOWN
  | some d =>
      if 50 ≤ d ∧ d ≤ 60 then GREEN
      else if 45 ≤ d ∧ d ≤ 65 then YELLOW
      else RED

/-- US M2 year-over-year classifier (source line 145). -/
def get_m2_signal (yoy : Option ℚ) : String :=
  match yoy with
  | none => UNKNOWN
  | some y => if y > 5 then GREEN else if y ≥ 0 then YELLOW else RED

/-- Stablecoin market-cap classifier (source line 161). -/
def get_stablecoin_signal (total_b : Option ℚ) : String :=
  match total_b with
  | none => UNKNOWN
  | some t => if t > 200 then GREEN else if t ≥ 150 then YELLOW else RED

/-! ### Snapshot data model

One structure per sub-dict of the data mapping assembled by main().  A
field is none exactly when the corresponding key is missing from the dict
(the fetchers never store None under a key). -/

/-- Per-asset price data as produced by get_btc_detailed / get_eth_detailed. -/
structure CoinData where
  price_usd : Option ℚ
  price_krw : Option ℚ
  change_24h : Option ℚ
  change_7d : Option ℚ
  high_52w : Option ℚ
  low_52w : Option ℚ
  from_52w_high : Option ℚ
  from_52w_low : Option ℚ
  ma_120 : Option ℚ
  ma_120_distance : Option ℚ

/-- Fear-and-greed data as produced by get_fear_greed_index. -/
structure FearGreedData where
  value : Option ℤ
  classification : Option String
  yesterday : Option ℤ

/-- M2 data as produced by get_us_m2_supply. -/
structure M2Data where
  value_trillions : Option ℚ
  yoy_change : Option ℚ

/-- Funding-rate data as produced by get_funding_rate. -/
structure FundingData where
  rate_percent : Option ℚ

/-- Kimchi-premium data as produced by get_kimchi_premium. -/
structure KimchiData where
  premium_percent : Option ℚ
  usd_krw : Option ℚ

/-- Dominance data as produced by get_btc_dominance. -/
structure DominanceData where
  btc_dominance : Option ℚ

/-- Stablecoin data as produced by get_stablecoin_supply. -/
structure StablecoinData where
  total_billions : Option ℚ

/-- The full snapshot mapping handed to the report builders. -/
structure DashboardData where
  btc : CoinData
  eth : CoinData
  fear_greed : FearGreedData
  m2_supply : M2Data
  funding_rate : FundingData
  kimchi_premium : KimchiData
  dominance : DominanceData
  stablecoin : StablecoinData

/-- A coin sub-dict with every key missing. -/
def emptyCoin : CoinData := ⟨none, none, none, none, none, none, none, none, none, none⟩

/-- The snapshot in which every indicator value is absent (every fetch
returned an empty dict). -/
def emptyData : DashboardData :=
  ⟨emptyCoin, emptyCoin, ⟨none, none, none⟩, ⟨none, none⟩, ⟨none⟩, ⟨none, none⟩, ⟨none⟩, ⟨none⟩⟩

/-! ### Report rendering (source lines 416-631) -/

/-- Rendering of the local variable btc_ma_str / eth_ma_str of the source:
the signed one-decimal percentage when the distance is truthy, else N/A
(Python truthiness makes a present 0.0 fall into the N/A branch). -/
def maDistStr (d : Option ℚ) : String :=
  if pyTruthy d then fmtSigned 1 (d.getD 0) ++ "%" else "N/A"

/-- Rendering of btc_ma_price / eth_ma_price of the source. -/
def maPriceStr (p : Option ℚ) : String :=
  if pyTruthy p then "$" ++ fmtGrouped (p.getD 0) else "N/A"

/-- Interpolation of fg.get with default N/A for the integer index. -/
def optIntStr (v : Option ℤ) : String :=
  match v with
  | some n => toString n
  | none => "N/A"

/-- Interpolation of a float dict entry with default N/A. -/
def optFloatStr (v : Option ℚ) : String :=
  match v with
  | some q => pyStrFloat q
  | none => "N/A"

/-- Timestamp-bearing head of the Telegram report f-string. -/
def reportHeader (time_str : String) : String :=
  "📊 *Crypto Dashboard v5*\n_" ++ time_str ++ " CET_\n\n"

/-- Everything of the Telegram report f-string after the timestamp line;
a function of the snapshot only. -/
def reportBody (data : DashboardData) : String :=
  "━━━━━━━━━━━━━━━━━━━\n\n*BTC* $" ++
  fmtGrouped (data.btc.price_usd.getD 0) ++ " (" ++
  fmtSigned 1 (data.btc.change_24h.getD 0) ++ "%)\n" ++
  get_ma_signal data.btc.ma_120_distance ++ " 120D MA: " ++
  maPriceStr data.btc.ma_120 ++ " (" ++ maDistStr data.btc.ma_120_distance ++ ")\n" ++
  get_52w_high_signal data.btc.from_52w_high ++ " vs 52w High: " ++
  fmtFixed 1 (data.btc.from_52w_high.getD 0) ++ "%\n" ++
  get_52w_low_signal data.btc.from_52w_low ++ " vs 52w Low: +" ++
  fmtFixed 1 (data.btc.from_52w_low.getD 0) ++ "%\n\n*ETH* $" ++
  fmtGrouped (data.eth.price_usd.getD 0) ++ " (" ++
  fmtSigned 1 (data.eth.change_24h.getD 0) ++ "%)\n" ++
  get_ma_signal data.eth.ma_120_distance ++ " 120D MA: " ++
  maPriceStr data.eth.ma_120 ++ " (" ++ maDistStr data.eth.ma_120_distance ++ ")\n" ++
  get_52w_high_signal data.eth.from_52w_high ++ " vs 52w High: " ++
  fmtFixed 1 (data.eth.from_52w_high.getD 0) ++ "%\n" ++
  get_52w_low_signal data.eth.from_52w_low ++ " vs 52w Low: +" ++
  fmtFixed 1 (data.eth.from_52w_low.getD 0) ++
  "%\n\n━━━━━━━━━━━━━━━━━━━\n\n*Market Indicators*\n" ++
  get_fear_greed_signal data.fear_greed.value ++ " Fear & Greed: " ++
  optIntStr data.fear_greed.value ++ " (" ++
  (data.fear_greed.classification.getD ("")) ++ ")\n" ++
  get_kimchi_signal data.kimchi_premium.premium_percent ++ " Kimchi Premium: " ++
  optFloatStr data.kimchi_premium.premium_percent ++ "%\n" ++
  get_funding_signal data.funding_rate.rate_percent ++ " Funding Rate: " ++
  fmtFixed 4 (data.funding_rate.rate_percent.getD 0) ++ "%\n" ++
  get_dominance_signal data.dominance.btc_dominance ++ " BTC Dominance: " ++
  optFloatStr data.dominance.btc_dominance ++
  "%\n\n━━━━━━━━━━━━━━━━━━━\n\n*Macro*\n" ++
  get_m2_signal data.m2_supply.yoy_change ++ " US M2: $" ++
  fmtFixed 2 (data.m2_supply.value_trillions.getD 0) ++ "T (YoY " ++
  fmtSigned 1 (data.m2_supply.yoy_change.getD 0) ++ "%)\n⚪ USD/KRW: " ++
  fmtGrouped (data.kimchi_premium.usd_krw.getD 0) ++ "\n" ++
  get_stablecoin_signal data.stablecoin.total_billions ++ " Stablecoin: $" ++
  fmtFixed 0 (data.stablecoin.total_billions.getD 0) ++
  "B\n\n━━━━━━━━━━━━━━━━━━━\n🔗 [ETF](https://sosovalue.com/assets/etf/us-btc-spot) • [SOPR](https://charts.bgeometrics.com/lth_sopr.html) • [MVRV](https://charts.bgeometrics.com/mvrv.html) • [M2](https://charts.bgeometrics.com/m2_global.html)\n\n━━━━━━━━━━━━━━━━━━━\n📋 *Signal Criteria*\n\n*Price*\n• 120D MA: 🟢+5%↑ 🟡±5% 🔴-5%↓\n• 52w High: 🟢-15% 🟡-40% 🔴-40%↓\n• 52w Low: 🟢+100%↑ 🟡+30%↑ 🔴+30%↓\n\n*Market*\n• F&G: 🟢≤25 🟡26-74 🔴≥75\n• Kimchi: 🟢-1~2% 🟡-3~5% 🔴>5/<-3\n• Funding: 🟢-0.01~0.03 🟡~0.08 🔴>0.08\n• Dom: 🟢50-60% 🟡45-65% 🔴<45/>65\n\n*Macro*\n• M2: 🟢YoY+5%↑ 🟡0-5% 🔴<0%\n• Stable: 🟢>$200B 🟡$150-200B 🔴<$150B\n"

/-- Telegram report builder, source generate_report (lines 416-510): the
f-string followed by .strip().  time_str is the formatted result of the
implicit wall-clock read at the top of the Python function. -/
def generate_report (time_str : String) (data : DashboardData) : String :=
  pyStrip (reportHeader time_str ++ reportBody data)

/-- Timestamp-bearing head of the HTML email f-string (source lines
551-574): the style block and heading up to the blank line after the
timestamp paragraph. -/
def emailHeader (time_str : String) : String :=
  "\n    <html>\n    <head>\n        <style>\n            body \x7b font-family: Arial, sans-serif; max-width: 600px; margin: 0 auto; padding: 20px; \x7d\n            h1 \x7b color: #333; border-bottom: 2px solid #333; padding-bottom: 10px; \x7d\n            h2 \x7b color: #555; margin-top: 25px; \x7d\n            .section \x7b background: #f5f5f5; padding: 15px; border-radius: 8px; margin: 15px 0; \x7d\n            .price \x7b font-size: 24px; font-weight: bold; \x7d\n            .change-pos \x7b color: green; \x7d\n            .change-neg \x7b color: red; \x7d\n            table \x7b width: 100%; border-collapse: collapse; \x7d\n            td \x7b padding: 8px 0; \x7d\n            .signal \x7b font-size: 18px; \x7d\n            .links \x7b margin-top: 20px; \x7d\n            .links a \x7b margin-right: 15px; color: #0066cc; \x7d\n            .criteria \x7b background: #e8f4f8; padding: 15px; border-radius: 8px; margin-top: 20px; font-size: 12px; \x7d\n            .criteria h3 \x7b margin-top: 0; \x7d\n        </style>\n    </head>\n    <body>\n        <h1>📊 Crypto Dashboard</h1>\n        <p><em>" ++
  time_str ++ " CET</em></p>\n        \n"

/-- Everything of the HTML email f-string after the timestamp paragraph; a
function of the snapshot only (source lines 575-630). -/
def emailBody (data : DashboardData) : String :=
  "        <div class=\"section\">\n            <h2>BTC <span class=\"price\">$" ++
  fmtGrouped (data.btc.price_usd.getD 0) ++ "</span> \n            <span class=\"" ++
  (if data.btc.change_24h.getD 0 ≥ 0 then "change-pos" else "change-neg") ++ "\">(" ++
  fmtSigned 1 (data.btc.change_24h.getD 0) ++
  "%)</span></h2>\n            <table>\n                <tr><td class=\"signal\">" ++
  get_ma_signal data.btc.ma_120_distance ++ "</td><td>120D MA: " ++
  maPriceStr data.btc.ma_120 ++ " (" ++ maDistStr data.btc.ma_120_distance ++
  ")</td></tr>\n                <tr><td class=\"signal\">" ++
  get_52w_high_signal data.btc.from_52w_high ++ "</td><td>vs 52w High: " ++
  fmtFixed 1 (data.btc.from_52w_high.getD 0) ++
  "%</td></tr>\n                <tr><td class=\"signal\">" ++
  get_52w_low_signal data.btc.from_52w_low ++ "</td><td>vs 52w Low: +" ++
  fmtFixed 1 (data.btc.from_52w_low.getD 0) ++
  "%</td></tr>\n            </table>\n        </div>\n        \n        <div class=\"section\">\n            <h2>ETH <span class=\"price\">$" ++
  fmtGrouped (data.eth.price_usd.getD 0) ++ "</span>\n            <span class=\"" ++
  (if data.eth.change_24h.getD 0 ≥ 0 then "change-pos" else "change-neg") ++ "\">(" ++
  fmtSigned 1 (data.eth.change_24h.getD 0) ++
  "%)</span></h2>\n            <table>\n                <tr><td class=\"signal\">" ++
  get_ma_signal data.eth.ma_120_distance ++ "</td><td>120D MA: " ++
  maPriceStr data.eth.ma_120 ++ " (" ++ maDistStr data.eth.ma_120_distance ++
  ")</td></tr>\n                <tr><td class=\"signal\">" ++
  get_52w_high_signal data.eth.from_52w_high ++ "</td><td>vs 52w High: " ++
  fmtFixed 1 (data.eth.from_52w_high.getD 0) ++
  "%</td></tr>\n                <tr><td class=\"signal\">" ++
  get_52w_low_signal data.eth.from_52w_low ++ "</td><td>vs 52w Low: +" ++
  fmtFixed 1 (data.eth.from_52w_low.getD 0) ++
  "%</td></tr>\n            </table>\n        </div>\n        \n        <div class=\"section\">\n            <h2>Market Indicators</h2>\n            <table>\n                <tr><td class=\"signal\">" ++
  get_fear_greed_signal data.fear_greed.value ++ "</td><td>Fear & Greed: " ++
  optIntStr data.fear_greed.value ++ " (" ++
  (data.fear_greed.classification.getD ("")) ++
  ")</td></tr>\n                <tr><td class=\"signal\">" ++
  get_kimchi_signal data.kimchi_premium.premium_percent ++ "</td><td>Kimchi Premium: " ++
  optFloatStr data.kimchi_premium.premium_percent ++
  "%</td></tr>\n                <tr><td class=\"signal\">" ++
  get_funding_signal data.funding_rate.rate_percent ++ "</td><td>Funding Rate: " ++
  fmtFixed 4 (data.funding_rate.rate_percent.getD 0) ++
  "%</td></tr>\n                <tr><td class=\"signal\">" ++
  get_dominance_signal data.dominance.btc_dominance ++ "</td><td>BTC Dominance: " ++
  optFloatStr data.dominance.btc_dominance ++
  "%</td></tr>\n            </table>\n        </div>\n        \n        <div class=\"section\">\n            <h2>Macro</h2>\n            <table>\n                <tr><td class=\"signal\">" ++
  get_m2_signal data.m2_supply.yoy_change ++ "</td><td>US M2: $" ++
  fmtFixed 2 (data.m2_supply.value_trillions.getD 0) ++ "T (YoY " ++
  fmtSigned 1 (data.m2_supply.yoy_change.getD 0) ++
  "%)</td></tr>\n                <tr><td class=\"signal\">⚪</td><td>USD/KRW: " ++
  fmtGrouped (data.kimchi_premium.usd_krw.getD 0) ++
  "</td></tr>\n                <tr><td class=\"signal\">" ++
  get_stablecoin_signal data.stablecoin.total_billions ++ "</td><td>Stablecoin: $" ++
  fmtFixed 0 (data.stablecoin.total_billions.getD 0) ++
  "B</td></tr>\n            </table>\n        </div>\n        \n        <div class=\"links\">\n            <strong>🔗 Manual Check:</strong><br><br>\n            <a href=\"https://sosovalue.com/assets/etf/us-btc-spot\">ETF Flow</a>\n            <a href=\"https://charts.bgeometrics.com/lth_sopr.html\">LTH-SOPR</a>\n            <a href=\"https://charts.bgeometrics.com/mvrv.html\">MVRV</a>\n            <a href=\"https://charts.bgeometrics.com/m2_global.html\">Global M2</a>\n        </div>\n        \n        <div class=\"criteria\">\n            <h3>📋 Signal Criteria</h3>\n            <p><strong>Price:</strong> 120D MA: 🟢+5%↑ 🟡±5% 🔴-5%↓ | 52w High: 🟢-15% 🟡-40% 🔴-40%↓ | 52w Low: 🟢+100%↑ 🟡+30%↑ 🔴+30%↓</p>\n            <p><strong>Market:</strong> F&G: 🟢≤25 🟡26-74 🔴≥75 | Kimchi: 🟢-1~2% 🟡-3~5% 🔴>5/<-3 | Funding: 🟢-0.01~0.03 🟡~0.08 🔴>0.08 | Dom: 🟢50-60% 🟡45-65% 🔴<45/>65</p>\n            <p><strong>Macro:</strong> M2: 🟢YoY+5%↑ 🟡0-5% 🔴<0% | Stable: 🟢>$200B 🟡$150-200B 🔴<$150B</p>\n        </div>\n    </body>\n    </html>\n    "

/-- HTML email report builder, source generate_email_report (lines
513-631); no strip is applied to the html string.  time_str is again the
formatted result of the implicit wall-clock read inside the function. -/
def generate_email_report (time_str : String) (data : DashboardData) : String :=
  emailHeader time_str ++ emailBody data

/-! ### Composite aggregator -/

/-- Aggregate verdict labels of the composite aggregator. -/
inductive Verdict where
  | bullishV : Verdict
  | bearishV : Verdict
  | neutralV : Verdict
deriving DecidableEq

/-- Modelled from the spec: the Composite Aggregator verdict rule (spec
section 4.2).  The v5 source under src/ has dropped aggregation entirely
(only per-indicator tiers are displayed), so the counting rule exists only
in the specification: BULLISH when bullish_count exceeds bearish_count by
more than one, BEARISH when bearish_count exceeds bullish_count by more
than one, otherwise NEUTRAL. -/
def aggregate_verdict (bullish_count bearish_count : ℕ) : Verdict :=
  if bullish_count > bearish_count + 1 then Verdict.bullishV
  else if bearish_count > bullish_count + 1 then Verdict.bearishV
  else Verdict.neutralV

/-- Fixed timestamp used to instantiate the explicit clock argument of the
renderers in the concrete theorems. -/
def T0 : String := "2026-02-03 06:50"

/-- The C9 snapshot: the BTC 120-day MA distance is present and exactly 0,
every other value is absent. -/
def d9 : DashboardData :=
  ⟨⟨none, none, none, none, none, none, none, none, none, some 0⟩,
   emptyCoin, ⟨none, none, none⟩, ⟨none, none⟩, ⟨none⟩, ⟨none, none⟩, ⟨none⟩, ⟨none⟩⟩

/-- A second timestamp differing from T0, for the clock-dependence
counterexample. -/
def T1 : String := "2026-02-03 21:20"

/-- Favorability rank of a tier for claim C10: RED below YELLOW below GREEN. -/
def tierVal (s : String) : ℕ := if s = GREEN then 2 else if s = YELLOW then 1 else 0

/-! ### Helper lemmas -/

/-- eqCharsF is reflexive. -/
lemma eqCharsF_self (l : List Char) : eqCharsF l l = true := by
  induction l with
  | nil => rfl
  | cons c cs ih =>
      show (c == c && eqCharsF cs cs) = true
      simp [ih]

/-- eqStr is reflexive. -/
lemma eqStr_self (s : String) : eqStr s s = true := eqCharsF_self s.data

/-! ### Claims -/

/-- Claim C4 (confirmed, aggregator modelled from the spec): the composite
aggregator is total over all pairs of natural-number counts, returns
BULLISH exactly when bullish_count > bearish_count + 1, BEARISH exactly
when bearish_count > bullish_count + 1, NEUTRAL otherwise; in particular
it is NEUTRAL at (0, 0) and (2, 1) and BULLISH at (3, 1). -/
theorem claim_c4 : ∀ b r : ℕ,
    (aggregate_verdict b r = Verdict.bullishV ↔ b > r + 1) ∧
    (aggregate_verdict b r = Verdict.bearishV ↔ r > b + 1) ∧
    (aggregate_verdict b r = Verdict.neutralV ↔ (¬ b > r + 1 ∧ ¬ r > b + 1)) ∧
    aggregate_verdict 0 0 = Verdict.neutralV ∧
    aggregate_verdict 2 1 = Verdict.neutralV ∧
    aggregate_verdict 3 1 = Verdict.bullishV := by
  intro b r
  unfold aggregate_verdict
  refine ⟨?_, ?_, ?_, by decide, by decide, by decide⟩
  all_goals split_ifs with h1 h2 <;> simp_all <;> omega

/-- Claim C5 (confirmed): the 120-day MA distance classifier returns GREEN
iff the distance is at least +5, YELLOW iff it lies in [-5, +5), RED iff it
is below -5; in particular +5 is GREEN, -5 is YELLOW and -5.0001 is RED. -/
theorem claim_c5 : ∀ d : ℚ,
    ((get_ma_signal (some d) = GREEN ↔ 5 ≤ d) ∧
     (get_ma_signal (some d) = YELLOW ↔ (-5 ≤ d ∧ d < 5)) ∧
     (get_ma_signal (some d) = RED ↔ d < -5)) ∧
    get_ma_signal (some 5) = GREEN ∧
    get_ma_signal (some (-5)) = YELLOW ∧
    get_ma_signal (some (mkRat (-50001) 10000)) = RED ∧
    (mkRat (-50001) 10000 : ℚ) = -5.0001 := by
  intro d
  refine ⟨?_, by decide, by decide, by decide, by norm_num [Rat.mkRat_eq_div]⟩
  simp only [get_ma_signal]
  split_ifs with h1 h2
  · exact ⟨iff_of_true rfl h1,
      iff_of_false (by decide) (by rintro ⟨hc1, hc2⟩; linarith),
      iff_of_false (by decide) (by intro hc; linarith)⟩
  · exact ⟨iff_of_false (by decide) h1,
      iff_of_true rfl ⟨h2, not_le.mp h1⟩,
      iff_of_false (by decide) (by intro hc; linarith)⟩
  · exact ⟨iff_of_false (by decide) h1,
      iff_of_false (by decide) (by rintro ⟨hc1, hc2⟩; exact h2 hc1),
      iff_of_true rfl (not_le.mp h2)⟩

/-- Claim C6 (confirmed): the sentiment classifier returns GREEN iff the
index is at most 25, YELLOW iff it lies in [26, 74], RED iff it is at least
75; in particular 25 is GREEN, 26 and 74 are YELLOW, 75 is RED. -/
theorem claim_c6 : ∀ v : ℤ,
    ((get_fear_greed_signal (some v) = GREEN ↔ v ≤ 25) ∧
     (get_fear_greed_signal (some v) = YELLOW ↔ (26 ≤ v ∧ v ≤ 74)) ∧
     (get_fear_greed_signal (some v) = RED ↔ 75 ≤ v)) ∧
    get_fear_greed_signal (some 25) = GREEN ∧
    get_fear_greed_signal (some 26) = YELLOW ∧
    get_fear_greed_signal (some 74) = YELLOW ∧
    get_fear_greed_signal (some 75) = RED := by
  intro v
  refine ⟨?_, by decide, by decide, by decide, by decide⟩
  simp only [get_fear_greed_signal]
  split_ifs with h1 h2
  · exact ⟨iff_of_true rfl h1,
      iff_of_false (by decide) (by rintro ⟨hc1, hc2⟩; omega),
      iff_of_false (by decide) (by intro hc; omega)⟩
  · exact ⟨iff_of_false (by decide) h1,
      iff_of_true rfl ⟨by omega, h2⟩,
      iff_of_false (by decide) (by intro hc; omega)⟩
  · exact ⟨iff_of_false (by decide) h1,
      iff_of_false (by decide) (by rintro ⟨hc1, hc2⟩; exact h2 hc2),
      iff_of_true rfl (by omega)⟩

/-- Claim C7 (confirmed): for the premium, funding-rate and dominance
classifiers GREEN is tested before YELLOW, so YELLOW holds exactly on the
wider interval minus the GREEN interval (two disjoint sub-intervals) and
RED holds exactly outside the wider interval. -/
theorem claim_c7 : ∀ p r d : ℚ,
    ((get_kimchi_signal (some p) = GREEN ↔ (-1 ≤ p ∧ p ≤ 2)) ∧
     (get_kimchi_signal (some p) = YELLOW ↔ ((-3 ≤ p ∧ p < -1) ∨ (2 < p ∧ p ≤ 5))) ∧
     (get_kimchi_signal (some p) = RED ↔ (p < -3 ∨ 5 < p))) ∧
    ((get_funding_signal (some r) = GREEN ↔ (-0.01 ≤ r ∧ r ≤ 0.03)) ∧
     (get_funding_signal (some r) = YELLOW ↔ ((-0.03 ≤ r ∧ r < -0.01) ∨ (0.03 < r ∧ r ≤ 0.08))) ∧
     (get_funding_signal (some r) = RED ↔ (r < -0.03 ∨ 0.08 < r))) ∧
    ((get_dominance_signal (some d) = GREEN ↔ (50 ≤ d ∧ d ≤ 60)) ∧
     (get_dominance_signal (some d) = YELLOW ↔ ((45 ≤ d ∧ d < 50) ∨ (60 < d ∧ d ≤ 65))) ∧
     (get_dominance_signal (some d) = RED ↔ (d < 45 ∨ 65 < d))) := by
  intro p r d
  refine ⟨?_, ?_, ?_⟩
  · simp only [get_kimchi_signal]
    split_ifs with h1 h2
    · exact ⟨iff_of_true rfl h1,
        iff_of_false (by decide)
          (by rintro (⟨hc1, hc2⟩ | ⟨hc1, hc2⟩) <;> [linarith [h1.1]; linarith [h1.2]]),
        iff_of_false (by decide) (by rintro (hc | hc) <;> [linarith [h1.1]; linarith [h1.2]])⟩
    · refine ⟨iff_of_false (by decide) h1, iff_of_true rfl ?_,
        iff_of_false (by decide) (by rintro (hc | hc) <;> [linarith [h2.1]; linarith [h2.2]])⟩
      rcases not_and_or.mp h1 with hc | hc
      · exact Or.inl ⟨h2.1, not_le.mp hc⟩
      · exact Or.inr ⟨not_le.mp hc, h2.2⟩
    · refine ⟨iff_of_false (by decide) h1,
        iff_of_false (by decide)
          (by rintro (⟨hc1, hc2⟩ | ⟨hc1, hc2⟩) <;> exact h2 ⟨by linarith, by linarith⟩),
        iff_of_true rfl ?_⟩
      rcases not_and_or.mp h2 with hc | hc
      · exact Or.inl (not_le.mp hc)
      · exact Or.inr (not_le.mp hc)
  · have e1 : (mkRat (-1) 100 : ℚ) = -0.01 := by norm_num [Rat.mkRat_eq_div]
    have e2 : (mkRat 3 100 : ℚ) = 0.03 := by norm_num [Rat.mkRat_eq_div]
    have e3 : (mkRat (-3) 100 : ℚ) = -0.03 := by norm_num [Rat.mkRat_eq_div]
    have e4 : (mkRat 8 100 : ℚ) = 0.08 := by norm_num [Rat.mkRat_eq_div]
    simp only [get_funding_signal, e1, e2, e3, e4]
    split_ifs with h1 h2
    · exact ⟨iff_of_true rfl h1,
        iff_of_false (by decide)
          (by rintro (⟨hc1, hc2⟩ | ⟨hc1, hc2⟩) <;> [linarith [h1.1]; linarith [h1.2]]),
        iff_of_false (by decide) (by rintro (hc | hc) <;> [linarith [h1.1]; linarith [h1.2]])⟩
    · refine ⟨iff_of_false (by decide) h1, iff_of_true rfl ?_,
        iff_of_false (by decide) (by rintro (hc | hc) <;> [linarith [h2.1]; linarith [h2.2]])⟩
      rcases not_and_or.mp h1 with hc | hc
      · exact Or.inl ⟨h2.1, not_le.mp hc⟩
      · exact Or.inr ⟨not_le.mp hc, h2.2⟩
    · refine ⟨iff_of_false (by decide) h1,
        iff_of_false (by decide)
          (by rintro (⟨hc1, hc2⟩ | ⟨hc1, hc2⟩) <;> exact h2 ⟨by linarith, by linarith⟩),
        iff_of_true rfl ?_⟩
      rcases not_and_or.mp h2 with hc | hc
      · exact Or.inl (not_le.mp hc)
      · exact Or.inr (not_le.mp hc)
  · simp only [get_dominance_signal]
    split_ifs with h1 h2
    · exact ⟨iff_of_true rfl h1,
        iff_of_false (by decide)
          (by rintro (⟨hc1, hc2⟩ | ⟨hc1, hc2⟩) <;> [linarith [h1.1]; linarith [h1.2]]),
        iff_of_false (by decide) (by rintro (hc | hc) <;> [linarith [h1.1]; linarith [h1.2]])⟩
    · refine ⟨iff_of_false (by decide) h1, iff_of_true rfl ?_,
        iff_of_false (by decide) (by rintro (hc | hc) <;> [linarith [h2.1]; linarith [h2.2]])⟩
      rcases not_and_or.mp h1 with hc | hc
      · exact Or.inl ⟨h2.1, not_le.mp hc⟩
      · exact Or.inr ⟨not_le.mp hc, h2.2⟩
    · refine ⟨iff_of_false (by decide) h1,
        iff_of_false (by decide)
          (by rintro (⟨hc1, hc2⟩ | ⟨hc1, hc2⟩) <;> exact h2 ⟨by linarith, by linarith⟩),
        iff_of_true rfl ?_⟩
      rcases not_and_or.mp h2 with hc | hc
      · exact Or.inl (not_le.mp hc)
      · exact Or.inr (not_le.mp hc)

/-- Claim C8 (confirmed): every per-indicator classifier is a pure total
function of its optional input; it returns UNKNOWN exactly when the input
is absent, and on every present value it returns one of the three
pairwise-distinct tiers GREEN, YELLOW, RED. -/
theorem claim_c8 :
    (GREEN ≠ YELLOW ∧ GREEN ≠ RED ∧ YELLOW ≠ RED ∧
     GREEN ≠ UNKNOWN ∧ YELLOW ≠ UNKNOWN ∧ RED ≠ UNKNOWN) ∧
    (∀ v : Option ℚ, (get_ma_signal v = UNKNOWN ↔ v = none)) ∧
    (∀ x : ℚ, get_ma_signal (some x) = GREEN ∨ get_ma_signal (some x) = YELLOW ∨
      get_ma_signal (some x) = RED) ∧
    (∀ v : Option ℚ, (get_52w_high_signal v = UNKNOWN ↔ v = none)) ∧
    (∀ x : ℚ, get_52w_high_signal (some x) = GREEN ∨ get_52w_high_signal (some x) = YELLOW ∨
      get_52w_high_signal (some x) = RED) ∧
    (∀ v : Option ℚ, (get_52w_low_signal v = UNKNOWN ↔ v = none)) ∧
    (∀ x : ℚ, get_52w_low_signal (some x) = GREEN ∨ get_52w_low_signal (some x) = YELLOW ∨
      get_52w_low_signal (some x) = RED) ∧
    (∀ v : Option ℤ, (get_fear_greed_signal v = UNKNOWN ↔ v = none)) ∧
    (∀ x : ℤ, get_fear_greed_signal (some x) = GREEN ∨ get_fear_greed_signal (some x) = YELLOW ∨
      get_fear_greed_signal (some x) = RED) ∧
    (∀ v : Option ℚ, (get_kimchi_signal v = UNKNOWN ↔ v = none)) ∧
    (∀ x : ℚ, get_kimchi_signal (some x) = GREEN ∨ get_kimchi_signal (some x) = YELLOW ∨
      get_kimchi_signal (some x) = RED) ∧
    (∀ v : Option ℚ, (get_funding_signal v = UNKNOWN ↔ v = none)) ∧
    (∀ x : ℚ, get_funding_signal (some x) = GREEN ∨ get_funding_signal (some x) = YELLOW ∨
      get_funding_signal (some x) = RED) ∧
    (∀ v : Option ℚ, (get_dominance_signal v = UNKNOWN ↔ v = none)) ∧
    (∀ x : ℚ, get_dominance_signal (some x) = GREEN ∨ get_dominance_signal (some x) = YELLOW ∨
      get_dominance_signal (some x) = RED) ∧
    (∀ v : Option ℚ, (get_m2_signal v = UNKNOWN ↔ v = none)) ∧
    (∀ x : ℚ, get_m2_signal (some x) = GREEN ∨ get_m2_signal (some x) = YELLOW ∨
      get_m2_signal (some x) = RED) ∧
    (∀ v : Option ℚ, (get_stablecoin_signal v = UNKNOWN ↔ v = none)) ∧
    (∀ x : ℚ, get_stablecoin_signal (some x) = GREEN ∨ get_stablecoin_signal (some x) = YELLOW ∨
      get_stablecoin_signal (some x) = RED) := by
  refine ⟨by refine ⟨?_, ?_, ?_, ?_, ?_, ?_⟩ <;> decide,
    ?_, ?_, ?_, ?_, ?_, ?_, ?_, ?_, ?_, ?_, ?_, ?_, ?_, ?_, ?_, ?_, ?_, ?_⟩
  case _ => intro v; (cases v <;> simp [get_ma_signal]); split_ifs <;> decide
  case _ => intro x; simp only [get_ma_signal]; split_ifs <;> simp
  case _ => intro v; (cases v <;> simp [get_52w_high_signal]); split_ifs <;> decide
  case _ => intro x; simp only [get_52w_high_signal]; split_ifs <;> simp
  case _ => intro v; (cases v <;> simp [get_52w_low_signal]); split_ifs <;> decide
  case _ => intro x; simp only [get_52w_low_signal]; split_ifs <;> simp
  case _ => intro v; (cases v <;> simp [get_fear_greed_signal]); split_ifs <;> decide
  case _ => intro x; simp only [get_fear_greed_signal]; split_ifs <;> simp
  case _ => intro v; (cases v <;> simp [get_kimchi_signal]); split_ifs <;> decide
  case _ => intro x; simp only [get_kimchi_signal]; split_ifs <;> simp
  case _ => intro v; (cases v <;> simp [get_funding_signal]); split_ifs <;> decide
  case _ => intro x; simp only [get_funding_signal]; split_ifs <;> simp
  case _ => intro v; (cases v <;> simp [get_dominance_signal]); split_ifs <;> decide
  case _ => intro x; simp only [get_dominance_signal]; split_ifs <;> simp
  case _ => intro v; (cases v <;> simp [get_m2_signal]); split_ifs <;> decide
  case _ => intro x; simp only [get_m2_signal]; split_ifs <;> simp
  case _ => intro v; (cases v <;> simp [get_stablecoin_signal]); split_ifs <;> decide
  case _ => intro x; simp only [get_stablecoin_signal]; split_ifs <;> simp

/-- Claim C10 (confirmed): the five simple-threshold classifiers are
monotone: a larger present value never receives a less favorable tier
under the ordering RED below YELLOW below GREEN. -/
theorem claim_c10 : ∀ x y : ℚ, x ≤ y →
    tierVal (get_ma_signal (some x)) ≤ tierVal (get_ma_signal (some y)) ∧
    tierVal (get_52w_high_signal (some x)) ≤ tierVal (get_52w_high_signal (some y)) ∧
    tierVal (get_52w_low_signal (some x)) ≤ tierVal (get_52w_low_signal (some y)) ∧
    tierVal (get_m2_signal (some x)) ≤ tierVal (get_m2_signal (some y)) ∧
    tierVal (get_stablecoin_signal (some x)) ≤ tierVal (get_stablecoin_signal (some y)) := by
  intro x y hxy
  refine ⟨?_, ?_, ?_, ?_, ?_⟩
  · simp only [get_ma_signal]; split_ifs <;> first | decide | linarith
  · simp only [get_52w_high_signal]; split_ifs <;> first | decide | linarith
  · simp only [get_52w_low_signal]; split_ifs <;> first | decide | linarith
  · simp only [get_m2_signal]; split_ifs <;> first | decide | linarith
  · simp only [get_stablecoin_signal]; split_ifs <;> first | decide | linarith

/-- Witness for claim C10 at the concrete pair 0 and 1. -/
theorem claim_c10_witness :
    tierVal (get_ma_signal (some 0)) ≤ tierVal (get_ma_signal (some 1)) ∧
    tierVal (get_52w_high_signal (some 0)) ≤ tierVal (get_52w_high_signal (some 1)) ∧
    tierVal (get_52w_low_signal (some 0)) ≤ tierVal (get_52w_low_signal (some 1)) ∧
    tierVal (get_m2_signal (some 0)) ≤ tierVal (get_m2_signal (some 1)) ∧
    tierVal (get_stablecoin_signal (some 0)) ≤ tierVal (get_stablecoin_signal (some 1)) :=
  claim_c10 0 1 (by decide)

/-- Claim C2 (amended): rendering is deterministic once the snapshot and
the clock reading are fixed — equal inputs give byte-identical strings in
both formats — and the clock reading enters the output only through the
timestamp-bearing header of each format, the body being a function of the
snapshot alone.  In the source the timestamp is an implicit wall-clock read
inside each renderer, not an explicit caller-supplied input; the embedding
surfaces that read as the time_str argument. -/
theorem claim_c2 (t₁ t₂ : String) (d₁ d₂ : DashboardData)
    (ht : t₁ = t₂) (hd : d₁ = d₂) :
    generate_report t₁ d₁ = generate_report t₂ d₂ ∧
    generate_email_report t₁ d₁ = generate_email_report t₂ d₂ ∧
    generate_report t₁ d₁ = pyStrip (reportHeader t₁ ++ reportBody d₁) ∧
    generate_email_report t₁ d₁ = emailHeader t₁ ++ emailBody d₁ := by
  subst ht
  subst hd
  exact ⟨rfl, rfl, rfl, rfl⟩

/-- Witness for claim C2 at a concrete timestamp and the all-absent
snapshot. -/
theorem claim_c2_witness :
    generate_report T0 emptyData = generate_report T0 emptyData ∧
    generate_email_report T0 emptyData = generate_email_report T0 emptyData ∧
    generate_report T0 emptyData = pyStrip (reportHeader T0 ++ reportBody emptyData) ∧
    generate_email_report T0 emptyData = emailHeader T0 ++ emailBody emptyData :=
  claim_c2 T0 T0 emptyData emptyData rfl rfl

/-- Counterexample for claim C2 as stated: the renderer output is not a
function of the data mapping alone — two runs over the same snapshot with
different wall-clock readings give different strings, because the
timestamp comes from an implicit clock read inside the renderer rather
than from an explicit input. -/
theorem claim_c2_counterexample :
    generate_report T0 emptyData ≠ generate_report T1 emptyData := by
  intro h
  have hfalse : eqStr (generate_report T0 emptyData)
      (generate_report T1 emptyData) = false := rfl
  rw [h, eqStr_self] at hfalse
  exact Bool.noConfusion hfalse

/-- Claim C1 (amended): on the all-absent snapshot both renderers complete
and return ordinary report strings; the MA-distance, fear-and-greed,
kimchi-premium and dominance fields carry a literal N/A marker, but the
52-week-high distance, 52-week-low distance, funding rate, M2 YoY and
stablecoin-float fields are rendered from the numeric default 0 (as 0.0%,
+0.0%, 0.0000%, +0.0% and $0B) instead of an absence marker. -/
theorem claim_c1 :
    strOccurs (generate_report T0 emptyData) "⚪ 120D MA: N/A (N/A)" = true ∧
    strOccurs (generate_report T0 emptyData) "⚪ Fear & Greed: N/A ()" = true ∧
    strOccurs (generate_report T0 emptyData) "⚪ Kimchi Premium: N/A%" = true ∧
    strOccurs (generate_report T0 emptyData) "⚪ BTC Dominance: N/A%" = true ∧
    strOccurs (generate_report T0 emptyData) "⚪ vs 52w High: 0.0%" = true ∧
    strOccurs (generate_report T0 emptyData) "⚪ vs 52w Low: +0.0%" = true ∧
    strOccurs (generate_report T0 emptyData) "⚪ Funding Rate: 0.0000%" = true ∧
    strOccurs (generate_report T0 emptyData) "⚪ US M2: $0.00T (YoY +0.0%)" = true ∧
    strOccurs (generate_report T0 emptyData) "⚪ Stablecoin: $0B" = true ∧
    strOccurs (generate_email_report T0 emptyData) "vs 52w High: 0.0%" = true ∧
    strOccurs (generate_email_report T0 emptyData) "120D MA: N/A (N/A)" = true :=
  ⟨rfl, rfl, rfl, rfl, rfl, rfl, rfl, rfl, rfl, rfl, rfl⟩

/-- Counterexample for claim C1 as stated: on the all-absent snapshot the
52-week-high field of the Telegram report is rendered as the numeric 0.0%
and carries no N/A marker, so an absent value is rendered as a numeric and
not every declared indicator key gets an N/A marker. -/
theorem claim_c1_counterexample :
    strOccurs (generate_report T0 emptyData) "vs 52w High: 0.0%" = true ∧
    strOccurs (generate_report T0 emptyData) "vs 52w High: N/A" = false :=
  ⟨rfl, rfl⟩

/-- Claim C3 (amended): a mapping that lacks a declared key entirely is
processed without any failure: every classifier maps the resulting absent
value to UNKNOWN, and the renderers substitute defaults (the numeric 0 for
the numerically formatted fields) while still producing a full report. -/
theorem claim_c3 :
    get_ma_signal none = UNKNOWN ∧
    get_52w_high_signal none = UNKNOWN ∧
    get_52w_low_signal none = UNKNOWN ∧
    get_fear_greed_signal none = UNKNOWN ∧
    get_kimchi_signal none = UNKNOWN ∧
    get_funding_signal none = UNKNOWN ∧
    get_dominance_signal none = UNKNOWN ∧
    get_m2_signal none = UNKNOWN ∧
    get_stablecoin_signal none = UNKNOWN ∧
    strOccurs (generate_email_report T0 emptyData) "US M2: $0.00T (YoY +0.0%)" = true :=
  ⟨rfl, rfl, rfl, rfl, rfl, rfl, rfl, rfl, rfl, rfl⟩

/-- Counterexample for claim C3 as stated: with every declared key missing
the Telegram renderer does not fail fast with an error naming a missing
key — it returns an ordinary report that silently substitutes the numeric
value 0 for the missing stablecoin key. -/
theorem claim_c3_counterexample :
    strOccurs (generate_report T0 emptyData) "📊 *Crypto Dashboard v5*" = true ∧
    strOccurs (generate_report T0 emptyData) "Stablecoin: $0B" = true :=
  ⟨rfl, rfl⟩

/-- Claim C9 (confirmed): a present 120-day MA distance of exactly 0 is
rendered as the literal N/A in both report formats, identically to the
absent case (Python truthiness conflates 0.0 with None in the formatting
branch), even though the classifier still grades 0 as YELLOW. -/
theorem claim_c9 :
    maDistStr (some 0) = "N/A" ∧
    maDistStr none = "N/A" ∧
    get_ma_signal (some 0) = YELLOW ∧
    strOccurs (generate_report T0 d9) "🟡 120D MA: N/A (N/A)" = true ∧
    strOccurs (generate_email_report T0 d9) "🟡</td><td>120D MA: N/A (N/A)" = true :=
  ⟨rfl, rfl, by decide, rfl, rfl⟩
